import Mathlib

/-!
Verification development for the standalone CRCON export job
(src/external_sync_standalone.py).  The Python source is shallowly
embedded: each relevant function is translated to a Lean definition over
explicit inputs (database snapshots, HTTP responses per attempt, the
state-file cell), datetimes are represented by their ISO-8601 rendering
(so that a value rendered with isoformat is modelled by the string
itself), and machine integers are Nat/Int.  Claims about the program are
then settled as theorems about these definitions.
-/

namespace ExternalSync

/-! ## JSON values

Model of the Python json module's value universe as used by the script
(the script only ever produces/consumes null, booleans, integers,
strings, arrays and string-keyed objects). -/

inductive Json where
  | null
  | bool (b : Bool)
  | num (n : Int)
  | str (s : String)
  | arr (xs : List Json)
  | obj (kvs : List (String × Json))
deriving Repr

/-- Python truthiness of a decoded JSON value, as used by
the line "if response_data.get('success'):". -/
def Json.truthy : Json → Bool
  | .null => false
  | .bool b => b
  | .num n => decide (n ≠ 0)
  | .str s => decide (s ≠ "")
  | .arr xs => !xs.isEmpty
  | .obj kvs => !kvs.isEmpty

/-- Model of dict.get(key) on a decoded JSON object: none when the key is
missing or the value is not an object (a non-dict value would raise in
Python; the send loop routes that through its generic handler, which is
modelled separately). -/
def Json.getField : Json → String → Option Json
  | .obj kvs, k => (kvs.find? (fun kv => kv.1 == k)).map (·.2)
  | _, _ => none

/-- Model of dict.get(key, default). -/
def Json.getD (j : Json) (k : String) (d : Json) : Json :=
  (j.getField k).getD d

/-! ### Serialization, mirroring json.dump(state, f, indent=2, ensure_ascii=False) -/

/-- Escapes a string the way the json module does (ensure_ascii=False:
non-ASCII characters are emitted verbatim). -/
def jsonEscapeChar (c : Char) : String :=
  if c = '"' then "\\\""
  else if c = '\\' then "\\\\"
  else if c = '\n' then "\\n"
  else if c = '\t' then "\\t"
  else if c = '\r' then "\\r"
  else String.singleton c

def jsonEscape (s : String) : String :=
  String.join (s.data.map jsonEscapeChar)

def jsonQuote (s : String) : String :=
  "\"" ++ jsonEscape s ++ "\""

/-- Indentation prefix at nesting level lvl for indent=2. -/
def jsonPad (lvl : Nat) : String :=
  String.join (List.replicate (2 * lvl) " ")

mutual

/-- Serialization of a JSON value with indent=2, at nesting level lvl
(the layout produced by Python json.dump(..., indent=2)). -/
def Json.dumpv (lvl : Nat) : Json → String
  | .null => "null"
  | .bool b => if b then "true" else "false"
  | .num n => toString n
  | .str s => jsonQuote s
  | .arr xs =>
      match xs with
      | [] => "[]"
      | x :: rest =>
          "[\n" ++ dumpItems (lvl + 1) x rest ++ "\n" ++ jsonPad lvl ++ "]"
  | .obj kvs =>
      match kvs with
      | [] => "\x7b\x7d"
      | (k, v) :: rest =>
          "\x7b\n" ++ dumpFields (lvl + 1) k v rest ++ "\n" ++ jsonPad lvl ++ "\x7d"
termination_by j => sizeOf j

def dumpItems (lvl : Nat) (x : Json) : List Json → String
  | [] => jsonPad lvl ++ Json.dumpv lvl x
  | y :: rest => jsonPad lvl ++ Json.dumpv lvl x ++ ",\n" ++ dumpItems lvl y rest
termination_by l => sizeOf x + sizeOf l

def dumpFields (lvl : Nat) (k : String) (v : Json) : List (String × Json) → String
  | [] => jsonPad lvl ++ jsonQuote k ++ ": " ++ Json.dumpv lvl v
  | (k2, v2) :: rest =>
      jsonPad lvl ++ jsonQuote k ++ ": " ++ Json.dumpv lvl v ++ ",\n" ++
        dumpFields lvl k2 v2 rest
termination_by l => sizeOf v + sizeOf l

end

/-- Top-level serialization of a JSON document (what json.dump writes). -/
def Json.dump (j : Json) : String := Json.dumpv 0 j

/-! ### Parsing, modelling json.load / json.loads

A small recursive-descent decoder over the character list of the file
content, with explicit fuel for termination (ASCII subset as produced by
the script itself; anything it cannot decode is a decode error, i.e.
none, exactly where json.load raises JSONDecodeError). -/

def jsonIsWs (c : Char) : Bool :=
  c = ' ' || c = '\n' || c = '\t' || c = '\r'

def jsonSkipWs : List Char → List Char
  | [] => []
  | c :: cs => if jsonIsWs c then jsonSkipWs cs else c :: cs

/-- Decodes the body of a string literal (the opening quote already
consumed), returning the characters and the rest of the input. -/
def jsonParseStringBody : List Char → Option (List Char × List Char)
  | [] => none
  | c :: cs =>
      if c = '"' then some ([], cs)
      else if c = '\\' then
        match cs with
        | [] => none
        | e :: cs2 =>
            let dec : Option Char :=
              if e = '"' then some '"'
              else if e = '\\' then some '\\'
              else if e = '/' then some '/'
              else if e = 'n' then some '\n'
              else if e = 't' then some '\t'
              else if e = 'r' then some '\r'
              else none
            match dec with
            | none => none
            | some d =>
                match jsonParseStringBody cs2 with
                | none => none
                | some (body, rest) => some (d :: body, rest)
      else
        match jsonParseStringBody cs with
        | none => none
        | some (body, rest) => some (c :: body, rest)

def jsonParseDigits (acc : Nat) (seen : Bool) : List Char → Option (Nat × List Char)
  | [] => if seen then some (acc, []) else none
  | c :: cs =>
      if c.isDigit then jsonParseDigits (acc * 10 + (c.toNat - 48)) true cs
      else if seen then some (acc, c :: cs)
      else none

mutual

def jsonParseValue : Nat → List Char → Option (Json × List Char)
  | 0, _ => none
  | _ + 1, [] => none
  | fuel + 1, c :: cs =>
      if c = 'n' then
        match cs with
        | 'u' :: 'l' :: 'l' :: rest => some (.null, rest)
        | _ => none
      else if c = 't' then
        match cs with
        | 'r' :: 'u' :: 'e' :: rest => some (.bool true, rest)
        | _ => none
      else if c = 'f' then
        match cs with
        | 'a' :: 'l' :: 's' :: 'e' :: rest => some (.bool false, rest)
        | _ => none
      else if c = '"' then
        match jsonParseStringBody cs with
        | none => none
        | some (body, rest) => some (.str (String.mk body), rest)
      else if c = '-' then
        match jsonParseDigits 0 false cs with
        | none => none
        | some (n, rest) => some (.num (-(n : Int)), rest)
      else if c.isDigit then
        match jsonParseDigits 0 false (c :: cs) with
        | none => none
        | some (n, rest) => some (.num (n : Int), rest)
      else if c = '[' then
        match jsonSkipWs cs with
        | ']' :: rest => some (.arr [], rest)
        | cs2 => (jsonParseItems fuel cs2).map (fun p => (.arr p.1, p.2))
      else if c = '\x7b' then
        match jsonSkipWs cs with
        | '\x7d' :: rest => some (.obj [], rest)
        | cs2 => (jsonParseFields fuel cs2).map (fun p => (.obj p.1, p.2))
      else none

def jsonParseItems : Nat → List Char → Option (List Json × List Char)
  | 0, _ => none
  | fuel + 1, cs =>
      match jsonParseValue fuel (jsonSkipWs cs) with
      | none => none
      | some (v, rest) =>
          match jsonSkipWs rest with
          | ',' :: rest2 =>
              (jsonParseItems fuel rest2).map (fun p => (v :: p.1, p.2))
          | ']' :: rest2 => some ([v], rest2)
          | _ => none

def jsonParseFields : Nat → List Char → Option (List (String × Json) × List Char)
  | 0, _ => none
  | fuel + 1, cs =>
      match jsonSkipWs cs with
      | '"' :: cs2 =>
          match jsonParseStringBody cs2 with
          | none => none
          | some (key, rest) =>
              match jsonSkipWs rest with
              | ':' :: rest2 =>
                  match jsonParseValue fuel (jsonSkipWs rest2) with
                  | none => none
                  | some (v, rest3) =>
                      match jsonSkipWs rest3 with
                      | ',' :: rest4 =>
                          (jsonParseFields fuel rest4).map
                            (fun p => ((String.mk key, v) :: p.1, p.2))
                      | '\x7d' :: rest4 => some ([(String.mk key, v)], rest4)
                      | _ => none
              | _ => none
      | _ => none

end

/-- Model of json.load on a file content: none is a JSONDecodeError. -/
def jsonParse (content : List Char) : Option Json :=
  match jsonParseValue (content.length + 1) (jsonSkipWs content) with
  | none => none
  | some (v, rest) => if (jsonSkipWs rest).isEmpty then some v else none

/-! ## MD5, modelling hashlib.md5(...).hexdigest()

Bytes are Nat values below 256, 32-bit words are Nat values below 2^32
(reduced explicitly with u32 where overflow matters). -/

def u32 (n : Nat) : Nat := n % 4294967296

def md5Not (x : Nat) : Nat := 4294967295 - u32 x

def md5Rotl (x s : Nat) : Nat :=
  u32 ((u32 x) <<< s) ||| ((u32 x) >>> (32 - s))

/-- The 64 sine-derived round constants of MD5. -/
def md5K : List Nat :=
  [0xd76aa478, 0xe8c7b756, 0x242070db, 0xc1bdceee,
   0xf57c0faf, 0x4787c62a, 0xa8304613, 0xfd469501,
   0x698098d8, 0x8b44f7af, 0xffff5bb1, 0x895cd7be,
   0x6b901122, 0xfd987193, 0xa679438e, 0x49b40821,
   0xf61e2562, 0xc040b340, 0x265e5a51, 0xe9b6c7aa,
   0xd62f105d, 0x02441453, 0xd8a1e681, 0xe7d3fbc8,
   0x21e1cde6, 0xc33707d6, 0xf4d50d87, 0x455a14ed,
   0xa9e3e905, 0xfcefa3f8, 0x676f02d9, 0x8d2a4c8a,
   0xfffa3942, 0x8771f681, 0x6d9d6122, 0xfde5380c,
   0xa4beea44, 0x4bdecfa9, 0xf6bb4b60, 0xbebfbc70,
   0x289b7ec6, 0xeaa127fa, 0xd4ef3085, 0x04881d05,
   0xd9d4d039, 0xe6db99e5, 0x1fa27cf8, 0xc4ac5665,
   0xf4292244, 0x432aff97, 0xab9423a7, 0xfc93a039,
   0x655b59c3, 0x8f0ccc92, 0xffeff47d, 0x85845dd1,
   0x6fa87e4f, 0xfe2ce6e0, 0xa3014314, 0x4e0811a1,
   0xf7537e82, 0xbd3af235, 0x2ad7d2bb, 0xeb86d391]

/-- The per-round left-rotation amounts of MD5. -/
def md5S : List Nat :=
  [7, 12, 17, 22, 7, 12, 17, 22, 7, 12, 17, 22, 7, 12, 17, 22,
   5, 9, 14, 20, 5, 9, 14, 20, 5, 9, 14, 20, 5, 9, 14, 20,
   4, 11, 16, 23, 4, 11, 16, 23, 4, 11, 16, 23, 4, 11, 16, 23,
   6, 10, 15, 21, 6, 10, 15, 21, 6, 10, 15, 21, 6, 10, 15, 21]

/-- Little-endian 32-bit word made of four bytes. -/
def md5Word (b0 b1 b2 b3 : Nat) : Nat :=
  b0 + 256 * b1 + 65536 * b2 + 16777216 * b3

/-- The sixteen message words of one 64-byte chunk (little-endian). -/
def md5Words : List Nat → List Nat
  | b0 :: b1 :: b2 :: b3 :: rest => md5Word b0 b1 b2 b3 :: md5Words rest
  | _ => []

/-- MD5 message padding: a 0x80 byte, zeros to 56 mod 64, then the
original bit length as a 64-bit little-endian number. -/
def md5Pad (msg : List Nat) : List Nat :=
  let zeros := (64 + 55 - msg.length % 64) % 64
  let bitLen := (8 * msg.length) % 18446744073709551616
  msg ++ [0x80] ++ List.replicate zeros 0 ++
    (List.range 8).map (fun i => bitLen / (256 ^ i) % 256)

/-- One MD5 round applied to the four-word register. -/
def md5Round (m : List Nat) (st : Nat × Nat × Nat × Nat) (i : Nat) :
    Nat × Nat × Nat × Nat :=
  let (a, b, c, d) := st
  let f :=
    if i < 16 then (b &&& c) ||| (md5Not b &&& d)
    else if i < 32 then (d &&& b) ||| (md5Not d &&& c)
    else if i < 48 then b ^^^ c ^^^ d
    else c ^^^ (b ||| md5Not d)
  let g :=
    if i < 16 then i
    else if i < 32 then (5 * i + 1) % 16
    else if i < 48 then (3 * i + 5) % 16
    else (7 * i) % 16
  let rot := md5Rotl (u32 (a + f + md5K.getD i 0 + m.getD g 0)) (md5S.getD i 0)
  (d, u32 (b + rot), b, c)

/-- Processing of one 64-byte chunk. -/
def md5Chunk (st : Nat × Nat × Nat × Nat) (chunk : List Nat) :
    Nat × Nat × Nat × Nat :=
  let m := md5Words chunk
  let (a, b, c, d) := (List.range 64).foldl (md5Round m) st
  let (a0, b0, c0, d0) := st
  (u32 (a0 + a), u32 (b0 + b), u32 (c0 + c), u32 (d0 + d))

/-- Splits a padded message into its 64-byte chunks (the fuel only bounds
the number of chunks so the recursion is structural; the wrapper passes
the length, which always suffices since each step consumes 64 bytes). -/
def md5ChunksF : Nat → List Nat → List (List Nat)
  | 0, _ => []
  | _ + 1, [] => []
  | fuel + 1, b :: rest =>
      ((b :: rest).take 64) :: md5ChunksF fuel ((b :: rest).drop 64)

def md5Chunks (l : List Nat) : List (List Nat) :=
  md5ChunksF l.length l

/-- The sixteen digest bytes (little-endian rendering of the register). -/
def md5Bytes (msg : List Nat) : List Nat :=
  let init := (0x67452301, 0xefcdab89, 0x98badcfe, 0x10325476)
  let (a, b, c, d) := (md5Chunks (md5Pad msg)).foldl md5Chunk init
  ([a, b, c, d].map (fun w => (List.range 4).map (fun i => w / (256 ^ i) % 256))).flatten

def hexDigitChar (n : Nat) : Char :=
  if n < 10 then Char.ofNat (48 + n) else Char.ofNat (87 + n)

def byteToHex (b : Nat) : List Char :=
  [hexDigitChar (b / 16), hexDigitChar (b % 16)]

/-- hashlib.md5(bytes).hexdigest(): the 32-character lowercase hex digest. -/
def md5Hex (msg : List Nat) : String :=
  String.mk ((md5Bytes msg).map byteToHex).flatten

/-- UTF-8 encoding of a Lean string, modelling str.encode(). -/
def utf8Encode (s : String) : List Nat :=
  (s.data.map (fun c =>
    let n := c.toNat
    if n < 0x80 then [n]
    else if n < 0x800 then [0xc0 ||| (n >>> 6), 0x80 ||| (n &&& 63)]
    else if n < 0x10000 then
      [0xe0 ||| (n >>> 12), 0x80 ||| ((n >>> 6) &&& 63), 0x80 ||| (n &&& 63)]
    else
      [0xf0 ||| (n >>> 18), 0x80 ||| ((n >>> 12) &&& 63),
       0x80 ||| ((n >>> 6) &&& 63), 0x80 ||| (n &&& 63)])).flatten

/-! ## Configuration

The environment-derived module globals, bundled as one immutable record
and passed to every function that reads them. -/

structure Config where
  enabledServers : List String
  serverNames : List (String × String)
  batchSizeLogLines : Nat
  batchSizePlayerStats : Nat
  batchSizeMaps : Nat
  batchSizePlayerSessions : Nat
  exportOnlyClosedSessions : Bool
  maxRetries : Nat
  retryDelay : Nat
  enableSync : Bool
  externalServerId : String

/-- Model of SERVER_NAMES.get(server_number, f"Server-{server_number}"). -/
def lookupServerName (cfg : Config) (server_number : String) : String :=
  match cfg.serverNames.find? (fun kv => kv.1 == server_number) with
  | some kv => kv.2
  | none => s!"Server-{server_number}"

/-- Decimal digit run: at least one digit, value read left to right. -/
def pyDigits? (ds : List Char) : Option Nat :=
  if ds.isEmpty then none
  else if ds.all (fun c => 48 ≤ c.toNat && c.toNat ≤ 57) then
    some (ds.foldl (fun n c => n * 10 + (c.toNat - 48)) 0)
  else none

/-- Model of Python int() on a string: an optional sign followed by at
least one decimal digit (the spellings that occur here; other accepted
Python forms such as surrounding whitespace are out of scope).  none
models the ValueError. -/
def pyInt? (s : String) : Option Int :=
  match s.data with
  | '-' :: ds => (pyDigits? ds).map (fun n => -(n : Int))
  | '+' :: ds => (pyDigits? ds).map (fun n => (n : Int))
  | ds => (pyDigits? ds).map (fun n => (n : Int))

/-- Model of the list comprehension int(s) for s in ENABLED_SERVERS:
none models the ValueError a non-numeric entry raises (caught by the
surrounding except of each extractor). -/
def enabledServerInts? (cfg : Config) : Option (List Int) :=
  cfg.enabledServers.mapM pyInt?

/-! ## Database rows

Columns holding SQL timestamps are represented by their ISO-8601
rendering, so that a value v with v.isoformat() is modelled by the
string itself and NULL by none.  Columns that may hold decoded JSON
(psycopg2 JSONB) or its textual form (TEXT) are a DbJson. -/

inductive DbJson where
  | dbnull
  | dbtext (s : String)
  | dbjson (j : Json)

structure MapRow where
  id : Nat
  start : Option String
  «end» : Option String
  server_number : Int
  map_name : String
  result : DbJson

/-- A log_lines row after the two LEFT JOINs of the query: player1_steamid
and player2_steamid hold s1.steam_id_64 and s2.steam_id_64 (none when the
join found no identity row). -/
structure LogRow where
  id : Nat
  event_time : Option String
  type : String
  weapon : Option String
  player1_steamid : Option String
  player2_steamid : Option String
  server : Option String

/-- A player_sessions row after its LEFT JOIN with steam_id_64. -/
structure SessionRow where
  id : Nat
  steam_id_64 : Option String
  start : Option String
  «end» : Option String
  server_number : Int

/-- A player_stats row after its LEFT JOIN with steam_id_64 (the join with
map_history is modelled explicitly in the extractor).  The float-typed
rate columns are carried as rationals; float() on them is the identity. -/
structure StatRow where
  id : Nat
  steam_id_64 : Option String
  map_id : Nat
  kills : Option Int
  kills_streak : Option Int
  deaths : Option Int
  deaths_without_kill_streak : Option Int
  teamkills : Option Int
  teamkills_streak : Option Int
  deaths_by_tk : Option Int
  deaths_by_tk_streak : Option Int
  time_seconds : Option Int
  kills_per_minute : Option Rat
  deaths_per_minute : Option Rat
  kill_death_ratio : Option Rat
  longest_life_secs : Option Int
  shortest_life_secs : Option Int
  death_by : DbJson
  most_killed : DbJson
  name : Option String
  weapons : DbJson
  death_by_weapons : DbJson
  combat : Option Int
  offense : Option Int
  defense : Option Int
  support : Option Int

/-! ## Exported records -/

structure MapEntry where
  map_external_id : String
  start : Option String
  «end» : Option String
  server_name : String
  map_name : String
  result : Option Json

structure LogEntry where
  event_time : Option String
  type : String
  weapon : Option String
  player1_steamid : Option String
  player2_steamid : Option String
  server_name : String

structure SessionEntry where
  steam_id_64 : Option String
  start : Option String
  «end» : Option String
  server_name : String

structure StatEntry where
  steam_id_64 : Option String
  map_external_id : String
  server_name : String
  kills : Option Int
  kills_streak : Option Int
  deaths : Option Int
  deaths_without_kill_streak : Option Int
  teamkills : Option Int
  teamkills_streak : Option Int
  deaths_by_tk : Option Int
  deaths_by_tk_streak : Option Int
  time_seconds : Option Int
  kills_per_minute : Option Rat
  deaths_per_minute : Option Rat
  kill_death_ratio : Option Rat
  longest_life_secs : Option Int
  shortest_life_secs : Option Int
  death_by : Option Json
  most_killed : Option Json
  name : Option String
  weapons : Option Json
  death_by_weapons : Option Json
  combat : Option Int
  offense : Option Int
  defense : Option Int
  support : Option Int
  match_end : Option String

/-! ## create_map_external_id -/

/-- create_map_external_id.  With datetimes modelled by their ISO
rendering, the isoformat branch is the identity; a None start falls to
str(start), i.e. the literal "None", and a None end to the "ongoing"
sentinel. -/
def create_map_external_id (server_name : String) (map_id : Nat)
    (start : Option String) («end» : Option String) (map_name : String) : String :=
  let start_str := match start with
    | some s => s
    | none => "None"
  let end_str := match «end» with
    | some s => s
    | none => "ongoing"
  let hash_base := s!"{start_str}_{end_str}_{map_name}"
  let hash_short := (md5Hex (utf8Encode hash_base)).take 12
  s!"{server_name}_map_{map_id}_{hash_short}"

/-! ## Extractors

Each extractor receives the outcome of its database interaction: error
models an exception raised while querying (psycopg2 raising in execute
or fetchall, or int() on a bad ENABLED_SERVERS entry), ok the full table
contents the SQL statement ranges over.  The SQL itself (WHERE filter,
ORDER BY id ASC, LIMIT) is modelled by filter, mergeSort and take. -/

/-- Ascending insertion by key (structural recursion, so that concrete
query results evaluate inside the kernel). -/
def insertByKey {ρ : Type} (key : ρ → Nat) (x : ρ) : List ρ → List ρ
  | [] => [x]
  | y :: ys => if key x < key y then x :: y :: ys else y :: insertByKey key x ys

/-- ORDER BY key ASC. -/
def sortByKey {ρ : Type} (key : ρ → Nat) : List ρ → List ρ
  | [] => []
  | x :: xs => insertByKey key x (sortByKey key xs)

/-- ORDER BY key ASC then LIMIT. -/
def scanBatch {ρ : Type} (key : ρ → Nat) (limit : Nat) (l : List ρ) : List ρ :=
  (sortByKey key l).take limit

/-- WHERE server_number = ANY(server_numbers) AND id > since_id. -/
def mapRowMatches (nums : List Int) (since_id : Nat) (r : MapRow) : Bool :=
  nums.contains r.server_number && decide (since_id < r.id)

def mapQuery (cfg : Config) (nums : List Int) (tbl : List MapRow) (since_id : Nat) :
    List MapRow :=
  scanBatch (·.id) cfg.batchSizeMaps (tbl.filter (mapRowMatches nums since_id))

/-- Handling of the result column: a falsy value is skipped, a TEXT value
is parsed (parse failures fall through to None), a decoded value is kept
as is. -/
def mapResultJson : DbJson → Option Json
  | .dbnull => none
  | .dbtext s => if s = "" then none else jsonParse s.data
  | .dbjson j => if j.truthy then some j else none

/-- The loop body of get_map_id_mapping over the fetched rows: builds the
export entries and the internal-to-external id mapping while tracking the
highest id observed. -/
def processMapRows (cfg : Config) :
    List MapRow → Nat → List MapEntry × List (Nat × String) × Nat
  | [], highest => ([], [], highest)
  | r :: rest, highest =>
      let highest1 := max highest r.id
      let server_number := toString r.server_number
      let server_name := lookupServerName cfg server_number
      let map_external_id :=
        create_map_external_id server_name r.id r.start r.«end» r.map_name
      let entry : MapEntry :=
        { map_external_id, start := r.start, «end» := r.«end», server_name,
          map_name := r.map_name, result := mapResultJson r.result }
      let (es, im, hid) := processMapRows cfg rest highest1
      (entry :: es, (r.id, map_external_id) :: im, hid)

/-- get_map_id_mapping: (maps_for_export, id_mapping, highest_id). -/
def get_map_id_mapping (cfg : Config) (q : Except Unit (List MapRow))
    (since_id : Nat) : List MapEntry × List (Nat × String) × Nat :=
  match q with
  | .error _ => ([], [], since_id)
  | .ok tbl =>
      match enabledServerInts? cfg with
      | none => ([], [], since_id)
      | some nums => processMapRows cfg (mapQuery cfg nums tbl since_id) since_id

/-- WHERE ll.type IN ('KILL', 'TEAM KILL') AND ll.id > since_id AND
ll.server = ANY(server_filters); a NULL server never equals ANY. -/
def logRowMatches (cfg : Config) (since_id : Nat) (r : LogRow) : Bool :=
  (r.type == "KILL" || r.type == "TEAM KILL") && decide (since_id < r.id) &&
    (match r.server with
     | some s => cfg.enabledServers.contains s
     | none => false)

def logQuery (cfg : Config) (tbl : List LogRow) (since_id : Nat) : List LogRow :=
  scanBatch (·.id) cfg.batchSizeLogLines (tbl.filter (logRowMatches cfg since_id))

/-- Last whitespace-separated token of a string (str.split()[-1]). -/
def lastToken (s : String) : Option String :=
  ((s.splitOn " ").filter (fun t => t ≠ "")).getLast?

/-- Extraction of the server number from the server column ("Server 1"
becomes "1").  A falsy column value falls back to "Server 1".  On a
truthy whitespace-only value CPython would raise IndexError; no CRCON
row carries one and the model returns "1" there. -/
def logServerNumber (server : Option String) : String :=
  let server_str := match server with
    | none => "Server 1"
    | some s => if s = "" then "Server 1" else s
  match lastToken server_str with
  | some t => t
  | none => "1"

/-- The loop body of get_filtered_logs over the fetched rows. -/
def processLogRows (cfg : Config) : List LogRow → Nat → List LogEntry × Nat
  | [], highest => ([], highest)
  | r :: rest, highest =>
      let highest1 := max highest r.id
      let server_name := lookupServerName cfg (logServerNumber r.server)
      let entry : LogEntry :=
        { event_time := r.event_time, type := r.type, weapon := r.weapon,
          player1_steamid := r.player1_steamid,
          player2_steamid := r.player2_steamid, server_name }
      let (es, hid) := processLogRows cfg rest highest1
      (entry :: es, hid)

/-- get_filtered_logs: (logs, highest_id). -/
def get_filtered_logs (cfg : Config) (q : Except Unit (List LogRow))
    (since_id : Nat) : List LogEntry × Nat :=
  match q with
  | .error _ => ([], since_id)
  | .ok tbl => processLogRows cfg (logQuery cfg tbl since_id) since_id

/-- WHERE psess.id > since_id AND psess.server_number = ANY(server_numbers). -/
def sessionRowMatches (nums : List Int) (since_id : Nat) (r : SessionRow) : Bool :=
  decide (since_id < r.id) && nums.contains r.server_number

def sessionQuery (cfg : Config) (nums : List Int) (tbl : List SessionRow)
    (since_id : Nat) : List SessionRow :=
  scanBatch (·.id) cfg.batchSizePlayerSessions
    (tbl.filter (sessionRowMatches nums since_id))

/-- The loop body of get_player_sessions over the fetched rows: the
highest checked id advances on every row, open rows are then skipped
under the EXPORT_ONLY_CLOSED_SESSIONS policy.  (The lookback query of the
source is behind "if False:" and contributes nothing.) -/
def processSessionRows (cfg : Config) :
    List SessionRow → Nat → List SessionEntry × Nat
  | [], highest => ([], highest)
  | r :: rest, highest =>
      let highest1 := max highest r.id
      if cfg.exportOnlyClosedSessions && r.«end».isNone then
        processSessionRows cfg rest highest1
      else
        let server_name := lookupServerName cfg (toString r.server_number)
        let entry : SessionEntry :=
          { steam_id_64 := r.steam_id_64, start := r.start, «end» := r.«end»,
            server_name }
        let (es, hid) := processSessionRows cfg rest highest1
        (entry :: es, hid)

/-- get_player_sessions: (sessions, highest_checked_id). -/
def get_player_sessions (cfg : Config) (q : Except Unit (List SessionRow))
    (since_id : Nat) : List SessionEntry × Nat :=
  match q with
  | .error _ => ([], since_id)
  | .ok tbl =>
      match enabledServerInts? cfg with
      | none => ([], since_id)
      | some nums =>
          processSessionRows cfg (sessionQuery cfg nums tbl since_id) since_id

/-- safe_json_parse of get_player_stats: None stays None, TEXT is parsed
with failures becoming None, decoded values pass through. -/
def safe_json_parse : DbJson → Option Json
  | .dbnull => none
  | .dbtext s => jsonParse s.data
  | .dbjson j => some j

/-- The LEFT JOIN of player_stats with map_history on ps.map_id = mh.id
(the primary key, hence find?), restricted by WHERE ps.id > since_id AND
mh.server_number = ANY(server_numbers); an unmatched join gives a NULL
server_number, which never equals ANY. -/
def statJoin (mapTbl : List MapRow) (nums : List Int) (since_id : Nat)
    (tbl : List StatRow) : List (StatRow × MapRow) :=
  tbl.filterMap (fun ps =>
    if since_id < ps.id then
      match mapTbl.find? (fun m => m.id == ps.map_id) with
      | some m => if nums.contains m.server_number then some (ps, m) else none
      | none => none
    else none)

def statQuery (cfg : Config) (mapTbl : List MapRow) (nums : List Int)
    (tbl : List StatRow) (since_id : Nat) : List (StatRow × MapRow) :=
  scanBatch (fun p => p.1.id) cfg.batchSizePlayerStats
    (statJoin mapTbl nums since_id tbl)

/-- The loop body of get_player_stats over the fetched joined rows. -/
def processStatRows (cfg : Config) :
    List (StatRow × MapRow) → Nat → List StatEntry × Nat
  | [], highest => ([], highest)
  | (ps, mh) :: rest, highest =>
      let highest1 := max highest ps.id
      let server_name := lookupServerName cfg (toString mh.server_number)
      let map_external_id :=
        create_map_external_id server_name ps.map_id mh.start mh.«end» mh.map_name
      let entry : StatEntry :=
        { steam_id_64 := ps.steam_id_64, map_external_id, server_name,
          kills := ps.kills, kills_streak := ps.kills_streak,
          deaths := ps.deaths,
          deaths_without_kill_streak := ps.deaths_without_kill_streak,
          teamkills := ps.teamkills, teamkills_streak := ps.teamkills_streak,
          deaths_by_tk := ps.deaths_by_tk,
          deaths_by_tk_streak := ps.deaths_by_tk_streak,
          time_seconds := ps.time_seconds,
          kills_per_minute := ps.kills_per_minute,
          deaths_per_minute := ps.deaths_per_minute,
          kill_death_ratio := ps.kill_death_ratio,
          longest_life_secs := ps.longest_life_secs,
          shortest_life_secs := ps.shortest_life_secs,
          death_by := safe_json_parse ps.death_by,
          most_killed := safe_json_parse ps.most_killed,
          name := ps.name,
          weapons := safe_json_parse ps.weapons,
          death_by_weapons := safe_json_parse ps.death_by_weapons,
          combat := ps.combat, offense := ps.offense, defense := ps.defense,
          support := ps.support, match_end := mh.«end» }
      let (es, hid) := processStatRows cfg rest highest1
      (entry :: es, hid)

/-- get_player_stats: (stats, highest_id). -/
def get_player_stats (cfg : Config) (mapTbl : List MapRow)
    (q : Except Unit (List StatRow)) (since_id : Nat) : List StatEntry × Nat :=
  match q with
  | .error _ => ([], since_id)
  | .ok tbl =>
      match enabledServerInts? cfg with
      | none => ([], since_id)
      | some nums =>
          processStatRows cfg (statQuery cfg mapTbl nums tbl since_id) since_id

/-! ## Sync state -/

structure ExportedIds where
  log_lines : Nat
  player_sessions : Nat
  player_stats : Nat
  map_history : Nat
deriving DecidableEq, Repr

structure SyncState where
  last_exported_ids : ExportedIds
  export_count : Nat
  last_export_time : Option String
  last_success : Option String
  last_error : Option Json
  total_exported : ExportedIds
deriving Repr

/-- The documented default of load_sync_state when no state file exists
or it is unreadable: all cursors and counters zero, timestamps null. -/
def defaultSyncState : SyncState :=
  { last_exported_ids :=
      { log_lines := 0, player_sessions := 0, player_stats := 0, map_history := 0 },
    export_count := 0,
    last_export_time := none,
    last_success := none,
    last_error := none,
    total_exported :=
      { log_lines := 0, player_sessions := 0, player_stats := 0, map_history := 0 } }

/-- Cell-level model of the persisted state file: none models a missing
file, some a decoded state.  load_sync_state falls back to the default.
(The character-level model of save and load used for the crash-atomicity
claim follows further below.) -/
def load_sync_state (store : Option SyncState) : SyncState :=
  store.getD defaultSyncState

/-- Cell-level model of save_sync_state: stamps last_export_time and
writes the state.  Every error while persisting is caught and logged;
writeOk=false models such an error, leaving the file untouched, and the
function still returns (no exception escapes). -/
def save_sync_state (state : SyncState) (now : String) (writeOk : Bool)
    (store : Option SyncState) : Option SyncState :=
  if writeOk then some { state with last_export_time := some now } else store

/-! ## Batch assembly (prepare_data_for_export) -/

structure Payload where
  server_id : String
  maps : List MapEntry
  log_lines : List LogEntry
  player_sessions : List SessionEntry
  player_stats : List StatEntry

structure DbSnapshot where
  map_history : List MapRow
  log_lines : List LogRow
  player_sessions : List SessionRow
  player_stats : List StatRow

/-- Which of the four extraction queries raise (query-level failure). -/
structure QueryErrors where
  map_history : Bool
  log_lines : Bool
  player_sessions : Bool
  player_stats : Bool

def queryInput {ρ : Type} (fail : Bool) (tbl : ρ) : Except Unit ρ :=
  if fail then .error () else .ok tbl

/-- prepare_data_for_export: loads the cursors, runs the four extractors
against that one snapshot of the cursors, and assembles the payload and
the prospective new state.  The conn argument models get_db_connection:
error is a connection failure, caught by the outer except (returns None). -/
def prepare_data_for_export (cfg : Config)
    (conn : Except Unit (DbSnapshot × QueryErrors))
    (store : Option SyncState) : Option (Payload × SyncState) :=
  if cfg.enableSync then
    match conn with
    | .error _ => none
    | .ok (snap, q) =>
        let state := load_sync_state store
        let last := state.last_exported_ids
        let mres :=
          get_map_id_mapping cfg (queryInput q.map_history snap.map_history)
            last.map_history
        let lres :=
          get_filtered_logs cfg (queryInput q.log_lines snap.log_lines)
            last.log_lines
        let sres :=
          get_player_sessions cfg
            (queryInput q.player_sessions snap.player_sessions)
            last.player_sessions
        let pres :=
          get_player_stats cfg snap.map_history
            (queryInput q.player_stats snap.player_stats) last.player_stats
        let data : Payload :=
          { server_id := cfg.externalServerId, maps := mres.1,
            log_lines := lres.1, player_sessions := sres.1,
            player_stats := pres.1 }
        let new_state : SyncState :=
          { state with
            last_exported_ids :=
              { map_history := mres.2.2, log_lines := lres.2,
                player_sessions := sres.2, player_stats := pres.2 },
            export_count := state.export_count + 1,
            total_exported :=
              { log_lines := state.total_exported.log_lines + lres.1.length,
                player_sessions :=
                  state.total_exported.player_sessions + sres.1.length,
                player_stats :=
                  state.total_exported.player_stats + pres.1.length,
                map_history :=
                  state.total_exported.map_history + mres.1.length } }
        some (data, new_state)
  else none

/-! ## Delivery (send_to_external_db) -/

/-- The data argument of send_to_external_db as Python sees it: a falsy
value (None or an empty dict) or an assembled payload dict. -/
inductive PyData where
  | pynone
  | emptyDict
  | payload (p : Payload)

/-- What one requests.post attempt comes back with: a response with a
status code and a decoded JSON body (none models a body that raises
JSONDecodeError), or one of the exception classes the code handles. -/
inductive HttpResp where
  | http (code : Nat) (body : Option Json)
  | timeout
  | connError
  | exn

/-- Observable outcome of send_to_external_db: the returned Bool, the
in-memory state dict after its mutations, the state-file cell, and the
trace of posted payloads and sleep durations. -/
structure SendOut where
  success : Bool
  state : SyncState
  store : Option SyncState
  posts : List Payload
  sleeps : List Nat

def payloadTotal (p : Payload) : Nat :=
  p.maps.length + p.log_lines.length + p.player_sessions.length +
    p.player_stats.length

/-- Truthiness of response_data.get('success'): a missing key is None,
hence falsy. -/
def respSuccess (j : Json) : Bool :=
  match j.getField "success" with
  | some v => v.truthy
  | none => false

/-- The retry loop of send_to_external_db.  attempt is the 1-based loop
variable, fuel the number of remaining iterations (the loop starts with
attempt 1 and fuel MAX_RETRIES; when fuel runs out the loop has been
exhausted and the function returns False).  responses gives the outcome
of the attempt-th post.  Mirroring the source: status 200 with a JSON
dict body either succeeds (truthy success field, state saved) or records
the application error and retries without sleeping; 200 with a non-dict
JSON body raises at response_data.get and lands in the generic handler;
200 without decodable JSON is treated as success; 429 backs off
RETRY_DELAY * attempt; any other status records "HTTP code" and backs
off RETRY_DELAY; timeouts back off RETRY_DELAY, connection errors
RETRY_DELAY * 2, unexpected exceptions RETRY_DELAY — all only when
another attempt remains. -/
def sendLoop (cfg : Config) (data : Payload) (responses : Nat → HttpResp)
    (now : String) (writeOk : Bool) :
    Nat → Nat → SyncState → Option SyncState → SendOut
  | _, 0, state, store =>
      { success := false, state, store, posts := [], sleeps := [] }
  | attempt, fuel + 1, state, store =>
      match responses attempt with
      | .http code body =>
          if code = 200 then
            match body with
            | some (.obj kvs) =>
                if respSuccess (.obj kvs) then
                  let state1 :=
                    { state with last_success := some now, last_error := none }
                  { success := true, state := state1,
                    store := save_sync_state state1 now writeOk store,
                    posts := [data], sleeps := [] }
                else
                  let state1 :=
                    { state with
                        last_error :=
                          some ((Json.obj kvs).getD "error"
                            (.str "Unknown error")) }
                  let r :=
                    sendLoop cfg data responses now writeOk (attempt + 1) fuel
                      state1 store
                  { r with posts := data :: r.posts }
            | some _ =>
                let r :=
                  sendLoop cfg data responses now writeOk (attempt + 1) fuel
                    state store
                { r with
                    posts := data :: r.posts,
                    sleeps :=
                      (if attempt < cfg.maxRetries then [cfg.retryDelay]
                       else []) ++ r.sleeps }
            | none =>
                let state1 :=
                  { state with last_success := some now, last_error := none }
                { success := true, state := state1,
                  store := save_sync_state state1 now writeOk store,
                  posts := [data], sleeps := [] }
          else if code = 429 then
            let r :=
              sendLoop cfg data responses now writeOk (attempt + 1) fuel
                state store
            { r with
                posts := data :: r.posts,
                sleeps :=
                  (if attempt < cfg.maxRetries then [cfg.retryDelay * attempt]
                   else []) ++ r.sleeps }
          else
            let state1 :=
              { state with last_error := some (.str s!"HTTP {code}") }
            let r :=
              sendLoop cfg data responses now writeOk (attempt + 1) fuel
                state1 store
            { r with
                posts := data :: r.posts,
                sleeps :=
                  (if attempt < cfg.maxRetries then [cfg.retryDelay]
                   else []) ++ r.sleeps }
      | .timeout =>
          let r :=
            sendLoop cfg data responses now writeOk (attempt + 1) fuel
              state store
          { r with
              posts := data :: r.posts,
              sleeps :=
                (if attempt < cfg.maxRetries then [cfg.retryDelay]
                 else []) ++ r.sleeps }
      | .connError =>
          let r :=
            sendLoop cfg data responses now writeOk (attempt + 1) fuel
              state store
          { r with
              posts := data :: r.posts,
              sleeps :=
                (if attempt < cfg.maxRetries then [cfg.retryDelay * 2]
                 else []) ++ r.sleeps }
      | .exn =>
          let r :=
            sendLoop cfg data responses now writeOk (attempt + 1) fuel
              state store
          { r with
              posts := data :: r.posts,
              sleeps :=
                (if attempt < cfg.maxRetries then [cfg.retryDelay]
                 else []) ++ r.sleeps }

/-- send_to_external_db.  A falsy data argument returns False at once; a
payload with no new records in any of the four kinds returns True at
once; otherwise the retry loop runs.  A 200 response whose JSON body is
not a dict raises AttributeError at response_data.get, which lands in
the generic except handler (fixed backoff, retry) — the second .http 200
branch of the loop. -/
def send_to_external_db (cfg : Config) (data : PyData) (state : SyncState)
    (responses : Nat → HttpResp) (now : String) (writeOk : Bool)
    (store : Option SyncState) : SendOut :=
  match data with
  | .pynone => { success := false, state, store, posts := [], sleeps := [] }
  | .emptyDict => { success := false, state, store, posts := [], sleeps := [] }
  | .payload p =>
      if payloadTotal p = 0 then
        { success := true, state, store, posts := [], sleeps := [] }
      else
        sendLoop cfg p responses now writeOk 1 cfg.maxRetries state store

/-! ## Character-level model of the state file (for the save atomicity
claim)

save_sync_state opens the state file with mode w — which truncates it on
the spot — and then json.dump writes the serialization into it.  There
is no temporary file and no rename.  A crash at point k observes: k = 0
the old content (before the open), k = 1 + j the first j characters of
the new serialization (old content already destroyed). -/

def exportedIdsToJson (ids : ExportedIds) : Json :=
  .obj [("log_lines", .num ids.log_lines),
        ("player_sessions", .num ids.player_sessions),
        ("player_stats", .num ids.player_stats),
        ("map_history", .num ids.map_history)]

def optStrToJson : Option String → Json
  | none => .null
  | some s => .str s

/-- The state dict in its construction order (the order of the literal in
load_sync_state, preserved by the in-place key updates). -/
def syncStateToJson (st : SyncState) : Json :=
  .obj [("last_exported_ids", exportedIdsToJson st.last_exported_ids),
        ("export_count", .num st.export_count),
        ("last_export_time", optStrToJson st.last_export_time),
        ("last_success", optStrToJson st.last_success),
        ("last_error", st.last_error.getD .null),
        ("total_exported", exportedIdsToJson st.total_exported)]

/-- The full character sequence an uninterrupted save_sync_state writes:
last_export_time stamped with now, then json.dump(..., indent=2). -/
def saveContent (st : SyncState) (now : String) : List Char :=
  (Json.dump (syncStateToJson { st with last_export_time := some now })).data

/-- The state-file content observed after a crash at point k during
save_sync_state (k = 0: before the open; k = 1 + j: after the truncation
and j written characters). -/
def save_crash_content (old : List Char) (st : SyncState) (now : String)
    (k : Nat) : List Char :=
  if k = 0 then old else (saveContent st now).take (k - 1)

def jsonNatField (j : Json) (k : String) : Nat :=
  match j.getField k with
  | some (.num n) => n.toNat
  | _ => 0

def exportedIdsOfJson (j : Json) : ExportedIds :=
  { log_lines := jsonNatField j "log_lines",
    player_sessions := jsonNatField j "player_sessions",
    player_stats := jsonNatField j "player_stats",
    map_history := jsonNatField j "map_history" }

def optStrOfJson : Option Json → Option String
  | some (.str s) => some s
  | _ => none

/-- Typed reading of a decoded state dict, following the .get access
patterns the code applies to the loaded dict (missing keys default). -/
def syncStateOfJson (j : Json) : SyncState :=
  { last_exported_ids := exportedIdsOfJson (j.getD "last_exported_ids" (.obj [])),
    export_count := jsonNatField j "export_count",
    last_export_time := optStrOfJson (j.getField "last_export_time"),
    last_success := optStrOfJson (j.getField "last_success"),
    last_error :=
      (j.getField "last_error").bind (fun v =>
        match v with
        | .null => none
        | v => some v),
    total_exported := exportedIdsOfJson (j.getD "total_exported" (.obj [])) }

/-- load_sync_state at the character level: json.load the content; any
decode error is caught and the documented default returned. -/
def load_sync_state_content (content : List Char) : SyncState :=
  match jsonParse content with
  | some j => syncStateOfJson j
  | none => defaultSyncState

/-! ## Watermark lemmas

The four extractor loops all track the highest primary key observed as a
left fold of max over the fetched rows, seeded with since_id. -/

def watermarkFold {ρ : Type} (key : ρ → Nat) (l : List ρ) (since : Nat) : Nat :=
  l.foldl (fun a r => max a (key r)) since

theorem le_watermarkFold {ρ : Type} (key : ρ → Nat) (l : List ρ) :
    ∀ since : Nat, since ≤ watermarkFold key l since := by
  induction l with
  | nil => intro since; exact Nat.le_refl _
  | cons x xs ih =>
      intro since
      exact Nat.le_trans (Nat.le_max_left since (key x)) (ih (max since (key x)))

theorem watermarkFold_eq_or_mem {ρ : Type} (key : ρ → Nat) (l : List ρ) :
    ∀ since : Nat, watermarkFold key l since = since ∨
      ∃ r ∈ l, watermarkFold key l since = key r := by
  induction l with
  | nil => intro since; exact Or.inl rfl
  | cons x xs ih =>
      intro since
      rcases ih (max since (key x)) with h | ⟨r, hr, h⟩
      · rcases Nat.le_total (key x) since with hle | hle
        · left
          simpa [watermarkFold, Nat.max_eq_left hle] using h
        · right
          refine ⟨x, List.mem_cons_self x xs, ?_⟩
          simpa [watermarkFold, Nat.max_eq_right hle] using h
      · exact Or.inr ⟨r, List.mem_cons_of_mem x hr, h⟩

theorem key_le_watermarkFold {ρ : Type} (key : ρ → Nat) {l : List ρ} {r : ρ}
    (hmem : r ∈ l) : ∀ since : Nat, key r ≤ watermarkFold key l since := by
  induction l with
  | nil => cases hmem
  | cons x xs ih =>
      intro since
      rcases List.mem_cons.mp hmem with rfl | hmem2
      · exact Nat.le_trans (Nat.le_max_right since (key r))
          (le_watermarkFold key xs (max since (key r)))
      · exact ih hmem2 (max since (key x))

theorem mem_insertByKey {ρ : Type} {key : ρ → Nat} {x a : ρ} :
    ∀ {l : List ρ}, a ∈ insertByKey key x l ↔ a = x ∨ a ∈ l := by
  intro l
  induction l with
  | nil => simp [insertByKey]
  | cons y ys ih =>
      by_cases hk : key x < key y
      · simp [insertByKey, hk]
      · simp only [insertByKey, hk, if_false, List.mem_cons, ih]
        tauto

theorem length_sortByKey {ρ : Type} {key : ρ → Nat} :
    ∀ l : List ρ, (sortByKey key l).length = l.length := by
  intro l
  induction l with
  | nil => rfl
  | cons x xs ih =>
      have hi : ∀ (z : ρ) (m : List ρ),
          (insertByKey key z m).length = m.length + 1 := by
        intro z m
        induction m with
        | nil => rfl
        | cons y ys ihm =>
            by_cases hk : key z < key y
            · simp [insertByKey, hk]
            · simp [insertByKey, hk, ihm]
      simp [sortByKey, hi, ih]

theorem mem_sortByKey {ρ : Type} {key : ρ → Nat} {a : ρ} :
    ∀ {l : List ρ}, a ∈ sortByKey key l ↔ a ∈ l := by
  intro l
  induction l with
  | nil => simp [sortByKey]
  | cons x xs ih =>
      simp [sortByKey, mem_insertByKey, ih]

theorem mem_scanBatch {ρ : Type} {key : ρ → Nat} {limit : Nat} {l : List ρ}
    {x : ρ} (h : x ∈ scanBatch key limit l) : x ∈ l :=
  mem_sortByKey.mp (List.mem_of_mem_take h)

theorem scanBatch_eq_nil_iff {ρ : Type} {key : ρ → Nat} {limit : Nat}
    {l : List ρ} (hlim : 0 < limit) : scanBatch key limit l = [] ↔ l = [] := by
  unfold scanBatch
  rw [List.take_eq_nil_iff]
  constructor
  · rintro (h | h)
    · omega
    · rwa [← List.length_eq_zero, length_sortByKey,
        List.length_eq_zero] at h
  · intro h
    subst h
    exact Or.inr rfl

theorem scan_watermark_lt_iff {ρ : Type} (key : ρ → Nat) {limit : Nat}
    (sel : List ρ) (since : Nat) (hsel : ∀ r ∈ sel, since < key r)
    (hlim : 0 < limit) :
    since < watermarkFold key (scanBatch key limit sel) since ↔ sel ≠ [] := by
  constructor
  · intro h
    rcases watermarkFold_eq_or_mem key (scanBatch key limit sel) since with
      heq | ⟨r, hr, _⟩
    · rw [heq] at h
      exact absurd h (Nat.lt_irrefl since)
    · exact List.ne_nil_of_mem (mem_scanBatch hr)
  · intro hne
    have hb : scanBatch key limit sel ≠ [] :=
      fun h => hne ((scanBatch_eq_nil_iff hlim).mp h)
    obtain ⟨x, hx⟩ := List.exists_mem_of_ne_nil _ hb
    exact Nat.lt_of_lt_of_le (hsel x (mem_scanBatch hx))
      (key_le_watermarkFold key hx since)

theorem processMapRows_watermark (cfg : Config) (rows : List MapRow) :
    ∀ highest : Nat,
      (processMapRows cfg rows highest).2.2 =
        watermarkFold (·.id) rows highest := by
  induction rows with
  | nil => intro highest; rfl
  | cons r rest ih =>
      intro highest
      simp only [processMapRows, watermarkFold, List.foldl_cons]
      exact ih (max highest r.id)

theorem processLogRows_watermark (cfg : Config) (rows : List LogRow) :
    ∀ highest : Nat,
      (processLogRows cfg rows highest).2 = watermarkFold (·.id) rows highest := by
  induction rows with
  | nil => intro highest; rfl
  | cons r rest ih =>
      intro highest
      simp only [processLogRows, watermarkFold, List.foldl_cons]
      exact ih (max highest r.id)

theorem processSessionRows_watermark (cfg : Config) (rows : List SessionRow) :
    ∀ highest : Nat,
      (processSessionRows cfg rows highest).2 =
        watermarkFold (·.id) rows highest := by
  induction rows with
  | nil => intro highest; rfl
  | cons r rest ih =>
      intro highest
      simp only [processSessionRows, watermarkFold, List.foldl_cons]
      by_cases hskip : cfg.exportOnlyClosedSessions && r.«end».isNone
      · simp only [hskip, if_true]
        exact ih (max highest r.id)
      · simp only [hskip, if_false]
        exact ih (max highest r.id)

theorem processStatRows_watermark (cfg : Config) (rows : List (StatRow × MapRow)) :
    ∀ highest : Nat,
      (processStatRows cfg rows highest).2 =
        watermarkFold (fun p => p.1.id) rows highest := by
  induction rows with
  | nil => intro highest; rfl
  | cons r rest ih =>
      intro highest
      obtain ⟨ps, mh⟩ := r
      simp only [processStatRows, watermarkFold, List.foldl_cons]
      exact ih (max highest ps.id)

/-- The row condition the player_stats query imposes through its join:
the stat row is new and its owning map_history row (found by primary
key) lies in the server allow-list. -/
def statRowMatches (mapTbl : List MapRow) (nums : List Int) (since_id : Nat)
    (ps : StatRow) : Bool :=
  decide (since_id < ps.id) &&
    (match mapTbl.find? (fun m => m.id == ps.map_id) with
     | some m => nums.contains m.server_number
     | none => false)

theorem filter_ne_nil_iff {ρ : Type} {P : ρ → Bool} {l : List ρ} :
    l.filter P ≠ [] ↔ ∃ r ∈ l, P r = true := by
  rw [Ne, List.filter_eq_nil_iff]
  push_neg
  simp

theorem statJoin_mem {mapTbl : List MapRow} {nums : List Int} {since_id : Nat}
    {tbl : List StatRow} {p : StatRow × MapRow}
    (h : p ∈ statJoin mapTbl nums since_id tbl) :
    p.1 ∈ tbl ∧ since_id < p.1.id := by
  obtain ⟨ps, hps, heq⟩ := List.mem_filterMap.mp h
  by_cases hlt : since_id < ps.id
  · simp only [hlt, if_true] at heq
    rcases hfind : mapTbl.find? (fun m => m.id == ps.map_id) with _ | m
    · rw [hfind] at heq
      cases heq
    · rw [hfind] at heq
      by_cases hc : nums.contains m.server_number
      · simp only [hc, if_true, Option.some.injEq] at heq
        subst heq
        exact ⟨hps, hlt⟩
      · simp only [hc, if_false] at heq
        cases heq
  · simp only [hlt, if_false] at heq
    cases heq

theorem statJoin_ne_nil_iff {mapTbl : List MapRow} {nums : List Int}
    {since_id : Nat} {tbl : List StatRow} :
    statJoin mapTbl nums since_id tbl ≠ [] ↔
      ∃ ps ∈ tbl, statRowMatches mapTbl nums since_id ps = true := by
  constructor
  · intro hne
    obtain ⟨p, hp⟩ := List.exists_mem_of_ne_nil _ hne
    obtain ⟨ps, hps, heq⟩ := List.mem_filterMap.mp hp
    refine ⟨ps, hps, ?_⟩
    by_cases hlt : since_id < ps.id
    · simp only [hlt, if_true] at heq
      rcases hfind : mapTbl.find? (fun m => m.id == ps.map_id) with _ | m
      · rw [hfind] at heq
        cases heq
      · rw [hfind] at heq
        by_cases hc : nums.contains m.server_number
        · rw [statRowMatches, Bool.and_eq_true]
          refine ⟨decide_eq_true hlt, ?_⟩
          rw [hfind]
          exact hc
        · simp only [hc, if_false] at heq
          cases heq
    · simp only [hlt, if_false] at heq
      cases heq
  · rintro ⟨ps, hps, hmatch⟩
    simp only [statRowMatches, Bool.and_eq_true, decide_eq_true_eq] at hmatch
    obtain ⟨hlt, hrest⟩ := hmatch
    rcases hfind : mapTbl.find? (fun m => m.id == ps.map_id) with _ | m
    · rw [hfind] at hrest
      cases hrest
    · rw [hfind] at hrest
      simp only at hrest
      refine List.ne_nil_of_mem (a := (ps, m)) ?_
      refine List.mem_filterMap.mpr ⟨ps, hps, ?_⟩
      simp only [hlt, if_true, hfind]
      rw [if_pos hrest]

theorem maps_watermark_le (cfg : Config) (q : Except Unit (List MapRow))
    (since_id : Nat) : since_id ≤ (get_map_id_mapping cfg q since_id).2.2 := by
  rcases q with _ | tbl
  · exact Nat.le_refl _
  · unfold get_map_id_mapping
    rcases hnums : enabledServerInts? cfg with _ | nums
    · exact Nat.le_refl _
    · simp only
      rw [processMapRows_watermark]
      exact le_watermarkFold _ _ _

theorem logs_watermark_le (cfg : Config) (q : Except Unit (List LogRow))
    (since_id : Nat) : since_id ≤ (get_filtered_logs cfg q since_id).2 := by
  rcases q with _ | tbl
  · exact Nat.le_refl _
  · unfold get_filtered_logs
    simp only
    rw [processLogRows_watermark]
    exact le_watermarkFold _ _ _

theorem sessions_watermark_le (cfg : Config) (q : Except Unit (List SessionRow))
    (since_id : Nat) : since_id ≤ (get_player_sessions cfg q since_id).2 := by
  rcases q with _ | tbl
  · exact Nat.le_refl _
  · unfold get_player_sessions
    rcases hnums : enabledServerInts? cfg with _ | nums
    · exact Nat.le_refl _
    · simp only
      rw [processSessionRows_watermark]
      exact le_watermarkFold _ _ _

theorem stats_watermark_le (cfg : Config) (mapTbl : List MapRow)
    (q : Except Unit (List StatRow)) (since_id : Nat) :
    since_id ≤ (get_player_stats cfg mapTbl q since_id).2 := by
  rcases q with _ | tbl
  · exact Nat.le_refl _
  · unfold get_player_stats
    rcases hnums : enabledServerInts? cfg with _ | nums
    · exact Nat.le_refl _
    · simp only
      rw [processStatRows_watermark]
      exact le_watermarkFold _ _ _

theorem maps_watermark_lt_iff (cfg : Config) (tbl : List MapRow)
    (nums : List Int) (since_id : Nat)
    (hnums : enabledServerInts? cfg = some nums)
    (hlim : 0 < cfg.batchSizeMaps) :
    since_id < (get_map_id_mapping cfg (.ok tbl) since_id).2.2 ↔
      ∃ r ∈ tbl, mapRowMatches nums since_id r = true := by
  unfold get_map_id_mapping
  rw [hnums]
  simp only
  rw [processMapRows_watermark]
  unfold mapQuery
  refine (scan_watermark_lt_iff _ _ _ ?_ hlim).trans filter_ne_nil_iff
  intro r hr
  have hP := (List.mem_filter.mp hr).2
  simp only [mapRowMatches, Bool.and_eq_true, decide_eq_true_eq] at hP
  exact hP.2

theorem logs_watermark_lt_iff (cfg : Config) (tbl : List LogRow)
    (since_id : Nat) (hlim : 0 < cfg.batchSizeLogLines) :
    since_id < (get_filtered_logs cfg (.ok tbl) since_id).2 ↔
      ∃ r ∈ tbl, logRowMatches cfg since_id r = true := by
  unfold get_filtered_logs
  simp only
  rw [processLogRows_watermark]
  unfold logQuery
  refine (scan_watermark_lt_iff _ _ _ ?_ hlim).trans filter_ne_nil_iff
  intro r hr
  have hP := (List.mem_filter.mp hr).2
  simp only [logRowMatches, Bool.and_eq_true, decide_eq_true_eq] at hP
  exact hP.1.2

theorem sessions_watermark_lt_iff (cfg : Config) (tbl : List SessionRow)
    (nums : List Int) (since_id : Nat)
    (hnums : enabledServerInts? cfg = some nums)
    (hlim : 0 < cfg.batchSizePlayerSessions) :
    since_id < (get_player_sessions cfg (.ok tbl) since_id).2 ↔
      ∃ r ∈ tbl, sessionRowMatches nums since_id r = true := by
  unfold get_player_sessions
  rw [hnums]
  simp only
  rw [processSessionRows_watermark]
  unfold sessionQuery
  refine (scan_watermark_lt_iff _ _ _ ?_ hlim).trans filter_ne_nil_iff
  intro r hr
  have hP := (List.mem_filter.mp hr).2
  simp only [sessionRowMatches, Bool.and_eq_true, decide_eq_true_eq] at hP
  exact hP.1

theorem stats_watermark_lt_iff (cfg : Config) (mapTbl : List MapRow)
    (tbl : List StatRow) (nums : List Int) (since_id : Nat)
    (hnums : enabledServerInts? cfg = some nums)
    (hlim : 0 < cfg.batchSizePlayerStats) :
    since_id < (get_player_stats cfg mapTbl (.ok tbl) since_id).2 ↔
      ∃ ps ∈ tbl, statRowMatches mapTbl nums since_id ps = true := by
  unfold get_player_stats
  rw [hnums]
  simp only
  rw [processStatRows_watermark]
  unfold statQuery
  refine (scan_watermark_lt_iff _ _ _ ?_ hlim).trans statJoin_ne_nil_iff
  intro p hp
  exact (statJoin_mem hp).2

/-! ## Concrete fixtures (default configuration and sample rows) -/

/-- The configuration the environment defaults of the script produce. -/
def cfgDefault : Config :=
  { enabledServers := ["1"],
    serverNames := [("1", "Server-DE-01")],
    batchSizeLogLines := 50000,
    batchSizePlayerStats := 25000,
    batchSizeMaps := 10000,
    batchSizePlayerSessions := 30000,
    exportOnlyClosedSessions := true,
    maxRetries := 3,
    retryDelay := 5,
    enableSync := true,
    externalServerId := "crcon_server_001" }

/-- A log_lines row of type CHAT on an enabled server: invisible to the
KILL/TEAM KILL query of get_filtered_logs. -/
def chatLogRow : LogRow :=
  { id := 1, event_time := some "2024-01-01T12:00:00", type := "CHAT",
    weapon := none, player1_steamid := some "7656119800000001",
    player2_steamid := none, server := some "1" }

/-- A KILL row on an enabled server. -/
def killLogRow : LogRow :=
  { id := 2, event_time := some "2024-01-01T12:00:05", type := "KILL",
    weapon := some "M1 GARAND", player1_steamid := some "7656119800000001",
    player2_steamid := some "7656119800000002", server := some "1" }

/-- C2, counterexample.  The claim states the watermark is strictly
greater than since_id if and only if some row with id > since_id exists
in the table restricted to the server allow-list.  Under the default
configuration, a table holding one CHAT row with id 1 on enabled server
"1" has such a row for since_id 0, yet get_filtered_logs leaves the
watermark at 0: the query additionally filters on type IN ('KILL',
'TEAM KILL'), which the claim omits. -/
theorem c2_counterexample :
    (get_filtered_logs cfgDefault (.ok [chatLogRow]) 0).2 = 0 ∧
    0 < chatLogRow.id ∧ chatLogRow.server = some "1" ∧
    "1" ∈ cfgDefault.enabledServers := by
  refine ⟨by decide, by decide, rfl, by decide⟩

/-- C2, amended.  For every extractor the returned watermark is at least
since_id; and with a positive batch limit (and, where the query casts
ENABLED_SERVERS to integers, a parseable allow-list) the watermark is
strictly greater than since_id exactly when some row with id > since_id
matches the extractor's full query condition: server allow-list for maps
and sessions, allow-list plus type IN ('KILL', 'TEAM KILL') for log
lines, and the allow-list applied to the joined map_history row for
stats. -/
theorem c2_amended_watermark :
    (∀ cfg q since_id, since_id ≤ (get_map_id_mapping cfg q since_id).2.2) ∧
    (∀ cfg q since_id, since_id ≤ (get_filtered_logs cfg q since_id).2) ∧
    (∀ cfg q since_id, since_id ≤ (get_player_sessions cfg q since_id).2) ∧
    (∀ cfg mapTbl q since_id,
      since_id ≤ (get_player_stats cfg mapTbl q since_id).2) ∧
    (∀ cfg tbl nums since_id, enabledServerInts? cfg = some nums →
      0 < cfg.batchSizeMaps →
      (since_id < (get_map_id_mapping cfg (.ok tbl) since_id).2.2 ↔
        ∃ r ∈ tbl, mapRowMatches nums since_id r = true)) ∧
    (∀ cfg tbl since_id, 0 < cfg.batchSizeLogLines →
      (since_id < (get_filtered_logs cfg (.ok tbl) since_id).2 ↔
        ∃ r ∈ tbl, logRowMatches cfg since_id r = true)) ∧
    (∀ cfg tbl nums since_id, enabledServerInts? cfg = some nums →
      0 < cfg.batchSizePlayerSessions →
      (since_id < (get_player_sessions cfg (.ok tbl) since_id).2 ↔
        ∃ r ∈ tbl, sessionRowMatches nums since_id r = true)) ∧
    (∀ cfg mapTbl tbl nums since_id, enabledServerInts? cfg = some nums →
      0 < cfg.batchSizePlayerStats →
      (since_id < (get_player_stats cfg mapTbl (.ok tbl) since_id).2 ↔
        ∃ ps ∈ tbl, statRowMatches mapTbl nums since_id ps = true)) := by
  refine ⟨maps_watermark_le, logs_watermark_le, sessions_watermark_le,
    stats_watermark_le, ?_, ?_, ?_, ?_⟩
  · intro cfg tbl nums since_id hnums hlim
    exact maps_watermark_lt_iff cfg tbl nums since_id hnums hlim
  · intro cfg tbl since_id hlim
    exact logs_watermark_lt_iff cfg tbl since_id hlim
  · intro cfg tbl nums since_id hnums hlim
    exact sessions_watermark_lt_iff cfg tbl nums since_id hnums hlim
  · intro cfg mapTbl tbl nums since_id hnums hlim
    exact stats_watermark_lt_iff cfg mapTbl tbl nums since_id hnums hlim

/-- C2, witness: the amended theorem applied at the default configuration
with one KILL row (log lines) and with the allow-list hypothesis
discharged (maps). -/
theorem c2_witness :
    (0 < (get_filtered_logs cfgDefault (.ok [killLogRow]) 0).2 ↔
      ∃ r ∈ [killLogRow], logRowMatches cfgDefault 0 r = true) ∧
    (0 < (get_map_id_mapping cfgDefault (.ok ([] : List MapRow)) 0).2.2 ↔
      ∃ r ∈ ([] : List MapRow), mapRowMatches [1] 0 r = true) :=
  ⟨c2_amended_watermark.2.2.2.2.2.1 cfgDefault [killLogRow] 0 (by decide),
   c2_amended_watermark.2.2.2.2.1 cfgDefault [] [1] 0 (by decide) (by decide)⟩

theorem processSessionRows_closed (cfg : Config)
    (hpol : cfg.exportOnlyClosedSessions = true) (rows : List SessionRow) :
    ∀ highest : Nat, ∀ e ∈ (processSessionRows cfg rows highest).1,
      e.«end» ≠ none := by
  induction rows with
  | nil =>
      intro highest e he
      simp [processSessionRows] at he
  | cons r rest ih =>
      intro highest e he
      by_cases hend : r.«end».isNone
      · rw [processSessionRows, if_pos (by rw [hpol, hend]; rfl)] at he
        exact ih _ e he
      · rw [processSessionRows,
          if_neg (by rw [hpol, Bool.true_and]; exact hend)] at he
        simp only at he
        rcases hp : processSessionRows cfg rest (max highest r.id) with ⟨es, hid⟩
        rw [hp] at he
        simp only [List.mem_cons] at he
        rcases he with rfl | he2
        · simpa [Option.isNone_iff_eq_none] using hend
        · exact ih _ e (by rw [hp]; exact he2)

/-- C7.  Under the default policy (EXPORT_ONLY_CLOSED_SESSIONS true),
no record with a null end time is ever emitted — a scanned open session
row contributes no record — while every scanned row's id, open or not,
is bounded by the returned high-water mark (the watermark advances over
skipped open sessions). -/
theorem c7_open_sessions_skipped_but_watermarked (cfg : Config)
    (tbl : List SessionRow) (nums : List Int) (since_id : Nat)
    (hpol : cfg.exportOnlyClosedSessions = true)
    (hnums : enabledServerInts? cfg = some nums) :
    (∀ e ∈ (get_player_sessions cfg (.ok tbl) since_id).1, e.«end» ≠ none) ∧
    (∀ r ∈ sessionQuery cfg nums tbl since_id,
      r.id ≤ (get_player_sessions cfg (.ok tbl) since_id).2) := by
  constructor
  · intro e he
    rw [get_player_sessions, hnums] at he
    simp only at he
    exact processSessionRows_closed cfg hpol _ _ e he
  · intro r hr
    rw [get_player_sessions, hnums]
    simp only
    rw [processSessionRows_watermark]
    exact key_le_watermarkFold (·.id) hr since_id

/-- An open session row on the enabled server. -/
def openSessionRow : SessionRow :=
  { id := 3, steam_id_64 := some "7656119800000001",
    start := some "2024-01-01T10:00:00", «end» := none, server_number := 1 }

/-- A closed session row on the enabled server, with a higher id. -/
def closedSessionRow : SessionRow :=
  { id := 5, steam_id_64 := some "7656119800000002",
    start := some "2024-01-01T10:05:00",
    «end» := some "2024-01-01T11:00:00", server_number := 1 }

/-- C7, witness: under the default configuration, scanning an open row
(id 3) and a closed row (id 5) emits only closed records while the open
row's id bounds into the watermark. -/
theorem c7_witness :
    (∀ e ∈ (get_player_sessions cfgDefault
        (.ok [openSessionRow, closedSessionRow]) 0).1, e.«end» ≠ none) ∧
    (∀ r ∈ sessionQuery cfgDefault [1] [openSessionRow, closedSessionRow] 0,
      r.id ≤ (get_player_sessions cfgDefault
        (.ok [openSessionRow, closedSessionRow]) 0).2) :=
  c7_open_sessions_skipped_but_watermarked cfgDefault
    [openSessionRow, closedSessionRow] [1] 0 (by decide) (by decide)

/-- C5.  With sync enabled and the connection up, preparation always
yields a batch; a query-level failure in any one extractor makes exactly
that extractor contribute an empty record list and an unchanged cursor,
and every payload component equals the standalone run of its own
extractor on its own inputs — a sibling's failure cannot influence it. -/
theorem c5_query_failure_isolated (cfg : Config) (snap : DbSnapshot)
    (q : QueryErrors) (store : Option SyncState)
    (h : cfg.enableSync = true) :
    (prepare_data_for_export cfg (.ok (snap, q)) store).isSome = true ∧
    (∀ p ns, prepare_data_for_export cfg (.ok (snap, q)) store = some (p, ns) →
      (q.map_history = true → p.maps = [] ∧
        ns.last_exported_ids.map_history =
          (load_sync_state store).last_exported_ids.map_history) ∧
      (q.log_lines = true → p.log_lines = [] ∧
        ns.last_exported_ids.log_lines =
          (load_sync_state store).last_exported_ids.log_lines) ∧
      (q.player_sessions = true → p.player_sessions = [] ∧
        ns.last_exported_ids.player_sessions =
          (load_sync_state store).last_exported_ids.player_sessions) ∧
      (q.player_stats = true → p.player_stats = [] ∧
        ns.last_exported_ids.player_stats =
          (load_sync_state store).last_exported_ids.player_stats) ∧
      p.maps = (get_map_id_mapping cfg
        (queryInput q.map_history snap.map_history)
        (load_sync_state store).last_exported_ids.map_history).1 ∧
      p.log_lines = (get_filtered_logs cfg
        (queryInput q.log_lines snap.log_lines)
        (load_sync_state store).last_exported_ids.log_lines).1 ∧
      p.player_sessions = (get_player_sessions cfg
        (queryInput q.player_sessions snap.player_sessions)
        (load_sync_state store).last_exported_ids.player_sessions).1 ∧
      p.player_stats = (get_player_stats cfg snap.map_history
        (queryInput q.player_stats snap.player_stats)
        (load_sync_state store).last_exported_ids.player_stats).1) := by
  constructor
  · simp [prepare_data_for_export, h]
  · intro p ns heq
    simp only [prepare_data_for_export, h, if_true, Option.some.injEq,
      Prod.mk.injEq] at heq
    obtain ⟨hp, hns⟩ := heq
    subst hp
    subst hns
    refine ⟨?_, ?_, ?_, ?_, rfl, rfl, rfl, rfl⟩
    · intro hq
      rw [hq]
      exact ⟨rfl, rfl⟩
    · intro hq
      rw [hq]
      exact ⟨rfl, rfl⟩
    · intro hq
      rw [hq]
      exact ⟨rfl, rfl⟩
    · intro hq
      rw [hq]
      exact ⟨rfl, rfl⟩

/-- A database snapshot with one KILL log row and one map row. -/
def snapSample : DbSnapshot :=
  { map_history :=
      [{ id := 7, start := some "2024-01-01T00:00:00", «end» := none,
         server_number := 1, map_name := "carentan", result := .dbnull }],
    log_lines := [killLogRow],
    player_sessions := [closedSessionRow],
    player_stats := [] }

/-- C5, witness: a failing log_lines query in an otherwise healthy batch
under the default configuration. -/
theorem c5_witness :
    (prepare_data_for_export cfgDefault
      (.ok (snapSample,
        { map_history := false, log_lines := true, player_sessions := false,
          player_stats := false })) none).isSome = true := by
  exact (c5_query_failure_isolated cfgDefault snapSample
    { map_history := false, log_lines := true, player_sessions := false,
      player_stats := false } none (by decide)).1

/-! ## Delivery lemmas -/

theorem sendLoop_store_of_failure (cfg : Config) (data : Payload)
    (responses : Nat → HttpResp) (now : String) (writeOk : Bool) :
    ∀ (fuel attempt : Nat) (st : SyncState) (store : Option SyncState),
      (sendLoop cfg data responses now writeOk attempt fuel st store).success
        = false →
      (sendLoop cfg data responses now writeOk attempt fuel st store).store
        = store := by
  intro fuel
  induction fuel with
  | zero => intro attempt st store _; rfl
  | succ n ih =>
      intro attempt st store hf
      rcases hresp : responses attempt with ⟨code, body⟩ | _ | _ | _
      case http =>
        simp only [sendLoop, hresp] at hf ⊢
        by_cases h200 : code = 200
        · rw [if_pos h200] at hf ⊢
          rcases body with _ | j
          · simp at hf
          · rcases j with _ | b | m | s | xs | kvs
            · exact ih _ _ _ hf
            · exact ih _ _ _ hf
            · exact ih _ _ _ hf
            · exact ih _ _ _ hf
            · exact ih _ _ _ hf
            · dsimp only at hf ⊢
              by_cases hs : respSuccess (.obj kvs)
              · rw [if_pos hs] at hf
                simp at hf
              · rw [if_neg hs] at hf ⊢
                exact ih _ _ _ hf
        · rw [if_neg h200] at hf ⊢
          by_cases h429 : code = 429
          · rw [if_pos h429] at hf ⊢
            exact ih _ _ _ hf
          · rw [if_neg h429] at hf ⊢
            exact ih _ _ _ hf
      case timeout =>
        simp only [sendLoop, hresp] at hf ⊢
        exact ih _ _ _ hf
      case connError =>
        simp only [sendLoop, hresp] at hf ⊢
        exact ih _ _ _ hf
      case exn =>
        simp only [sendLoop, hresp] at hf ⊢
        exact ih _ _ _ hf

theorem sendLoop_posts_all_eq (cfg : Config) (data : Payload)
    (responses : Nat → HttpResp) (now : String) (writeOk : Bool) :
    ∀ (fuel attempt : Nat) (st : SyncState) (store : Option SyncState)
      (q : Payload),
      q ∈ (sendLoop cfg data responses now writeOk attempt fuel st store).posts
        → q = data := by
  intro fuel
  induction fuel with
  | zero =>
      intro attempt st store q hq
      simp [sendLoop] at hq
  | succ n ih =>
      intro attempt st store q hq
      rcases hresp : responses attempt with ⟨code, body⟩ | _ | _ | _
      case http =>
        simp only [sendLoop, hresp] at hq
        by_cases h200 : code = 200
        · rw [if_pos h200] at hq
          rcases body with _ | j
          · simpa using hq
          · rcases j with _ | b | m | s | xs | kvs
            · rcases List.mem_cons.mp hq with rfl | hq2
              · rfl
              · exact ih _ _ _ _ hq2
            · rcases List.mem_cons.mp hq with rfl | hq2
              · rfl
              · exact ih _ _ _ _ hq2
            · rcases List.mem_cons.mp hq with rfl | hq2
              · rfl
              · exact ih _ _ _ _ hq2
            · rcases List.mem_cons.mp hq with rfl | hq2
              · rfl
              · exact ih _ _ _ _ hq2
            · rcases List.mem_cons.mp hq with rfl | hq2
              · rfl
              · exact ih _ _ _ _ hq2
            · dsimp only at hq
              by_cases hs : respSuccess (.obj kvs)
              · rw [if_pos hs] at hq
                simpa using hq
              · rw [if_neg hs] at hq
                rcases List.mem_cons.mp hq with rfl | hq2
                · rfl
                · exact ih _ _ _ _ hq2
        · rw [if_neg h200] at hq
          by_cases h429 : code = 429
          · rw [if_pos h429] at hq
            rcases List.mem_cons.mp hq with rfl | hq2
            · rfl
            · exact ih _ _ _ _ hq2
          · rw [if_neg h429] at hq
            rcases List.mem_cons.mp hq with rfl | hq2
            · rfl
            · exact ih _ _ _ _ hq2
      case timeout =>
        simp only [sendLoop, hresp] at hq
        rcases List.mem_cons.mp hq with rfl | hq2
        · rfl
        · exact ih _ _ _ _ hq2
      case connError =>
        simp only [sendLoop, hresp] at hq
        rcases List.mem_cons.mp hq with rfl | hq2
        · rfl
        · exact ih _ _ _ _ hq2
      case exn =>
        simp only [sendLoop, hresp] at hq
        rcases List.mem_cons.mp hq with rfl | hq2
        · rfl
        · exact ih _ _ _ _ hq2

theorem sendLoop_app_failure (cfg : Config) (data : Payload)
    (responses : Nat → HttpResp) (now : String) (writeOk : Bool)
    (kvs0 : List (String × Json))
    (hresp : ∀ i, responses i = .http 200 (some (.obj kvs0)))
    (hfail : respSuccess (.obj kvs0) = false) :
    ∀ (fuel attempt : Nat) (st : SyncState) (store : Option SyncState),
      sendLoop cfg data responses now writeOk attempt fuel st store =
        { success := false,
          state :=
            if fuel = 0 then st
            else { st with
                     last_error :=
                       some ((Json.obj kvs0).getD "error"
                         (.str "Unknown error")) },
          store := store, posts := List.replicate fuel data, sleeps := [] } := by
  intro fuel
  induction fuel with
  | zero => intro attempt st store; rfl
  | succ n ih =>
      intro attempt st store
      simp only [sendLoop, hresp attempt]
      rw [if_pos trivial, if_neg (by simp [hfail]), ih (attempt + 1)]
      rcases n with _ | m
      · rfl
      · rfl

theorem sendLoop_all_429 (cfg : Config) (data : Payload)
    (responses : Nat → HttpResp) (now : String) (writeOk : Bool)
    (bodyf : Nat → Option Json)
    (hresp : ∀ i, responses i = .http 429 (bodyf i)) :
    ∀ (fuel attempt : Nat) (st : SyncState) (store : Option SyncState),
      attempt + fuel = cfg.maxRetries + 1 →
      sendLoop cfg data responses now writeOk attempt fuel st store =
        { success := false, state := st, store := store,
          posts := List.replicate fuel data,
          sleeps := (List.range (fuel - 1)).map
            (fun j => cfg.retryDelay * (attempt + j)) } := by
  intro fuel
  induction fuel with
  | zero => intro attempt st store hinv; rfl
  | succ n ih =>
      intro attempt st store hinv
      simp only [sendLoop, hresp attempt]
      rw [if_neg (by omega), if_pos trivial,
        ih (attempt + 1) st store (by omega)]
      rcases n with _ | m
      · have hlt : ¬attempt < cfg.maxRetries := by omega
        rw [if_neg hlt]
        rfl
      · have hlt : attempt < cfg.maxRetries := by omega
        rw [if_pos hlt]
        have hsleeps : cfg.retryDelay * attempt ::
            (List.range (m + 1 - 1)).map
              (fun j => cfg.retryDelay * (attempt + 1 + j)) =
            (List.range (m + 1 + 1 - 1)).map
              (fun j => cfg.retryDelay * (attempt + j)) := by
          simp only [Nat.add_sub_cancel, List.range_succ_eq_map,
            List.map_cons, List.map_map, Nat.add_zero]
          refine congrArg _ ?_
          refine List.map_congr_left ?_
          intro a _
          show cfg.retryDelay * (attempt + 1 + a) =
            cfg.retryDelay * (attempt + (a + 1))
          have harr : attempt + 1 + a = attempt + (a + 1) := by omega
          rw [harr]
        simp only [List.singleton_append]
        rw [hsleeps]
        rfl

/-! ## Delivery fixtures -/

def logEntrySample : LogEntry :=
  { event_time := some "2024-01-01T12:00:05", type := "KILL",
    weapon := some "M1 GARAND", player1_steamid := some "7656119800000001",
    player2_steamid := some "7656119800000002",
    server_name := "Server-DE-01" }

/-- A payload holding one log line (total record count 1). -/
def payloadSample : Payload :=
  { server_id := "crcon_server_001", maps := [],
    log_lines := [logEntrySample], player_sessions := [],
    player_stats := [] }

/-- A 200 body in which the backend reports an application-level error. -/
def appFailBody : List (String × Json) :=
  [("success", .bool false), ("error", .str "boom")]

/-- A 200 body in which the backend acknowledges the batch. -/
def appSuccessBody : List (String × Json) :=
  [("success", .bool true), ("message", .str "OK")]

/-! ## Claims on delivery -/

/-- C1.  Whenever send_to_external_db returns False — for any payload,
any per-attempt responses and any retry configuration — the state-file
cell is exactly what it was before the call, so a subsequent load returns
the same last_exported_ids as a load before the attempt.  The two save
calls of the source sit exclusively on the return-True paths. -/
theorem c1_failed_delivery_leaves_state_untouched (cfg : Config)
    (data : PyData) (st : SyncState) (responses : Nat → HttpResp)
    (now : String) (writeOk : Bool) (store : Option SyncState)
    (hfail : (send_to_external_db cfg data st responses now writeOk
      store).success = false) :
    (send_to_external_db cfg data st responses now writeOk store).store
      = store ∧
    (load_sync_state (send_to_external_db cfg data st responses now writeOk
        store).store).last_exported_ids =
      (load_sync_state store).last_exported_ids := by
  have hstore : (send_to_external_db cfg data st responses now writeOk
      store).store = store := by
    rcases data with _ | _ | p
    · rfl
    · rfl
    · by_cases h0 : payloadTotal p = 0
      · simp only [send_to_external_db]
        rw [if_pos h0]
      · simp only [send_to_external_db] at hfail ⊢
        rw [if_neg h0] at hfail ⊢
        exact sendLoop_store_of_failure cfg p responses now writeOk
          cfg.maxRetries 1 st store hfail
  exact ⟨hstore, by rw [hstore]⟩

/-- C1, witness: three attempts all answered HTTP 500 leave a previously
empty store empty. -/
theorem c1_witness :
    (send_to_external_db cfgDefault (.payload payloadSample) defaultSyncState
      (fun _ => .http 500 none) "T" true none).success = false ∧
    (send_to_external_db cfgDefault (.payload payloadSample) defaultSyncState
      (fun _ => .http 500 none) "T" true none).store = none :=
  ⟨by decide,
   (c1_failed_delivery_leaves_state_untouched cfgDefault
     (.payload payloadSample) defaultSyncState (fun _ => .http 500 none)
     "T" true none (by decide)).1⟩

/-- C6.  A truthy payload whose four record lists are all empty makes
send_to_external_db return True immediately: no post, no sleep, no state
mutation, no save. -/
theorem c6_zero_records_success_no_request (cfg : Config) (p : Payload)
    (st : SyncState) (responses : Nat → HttpResp) (now : String)
    (writeOk : Bool) (store : Option SyncState)
    (h0 : payloadTotal p = 0) :
    send_to_external_db cfg (.payload p) st responses now writeOk store =
      { success := true, state := st, store := store, posts := [],
        sleeps := [] } := by
  simp only [send_to_external_db]
  rw [if_pos h0]

/-- The assembled payload of a run that found nothing new. -/
def emptyPayloadSample : Payload :=
  { server_id := "crcon_server_001", maps := [], log_lines := [],
    player_sessions := [], player_stats := [] }

/-- C6, witness: the empty payload short-circuits to success. -/
theorem c6_witness :
    send_to_external_db cfgDefault (.payload emptyPayloadSample)
      defaultSyncState (fun _ => .exn) "T" true none =
      { success := true, state := defaultSyncState, store := none,
        posts := [], sleeps := [] } :=
  c6_zero_records_success_no_request cfgDefault emptyPayloadSample
    defaultSyncState (fun _ => .exn) "T" true none (by decide)

/-- C8.  Delivery retry policy: (1) a 200 response whose JSON dict body
carries a falsy success field records the error into last_error and is
retried — with MAX_RETRIES attempts posted in all, not one; (2) all-429
responses are retried with a sleep of RETRY_DELAY * attempt before each
following attempt; (3) every posted payload of a call is the one
already-assembled payload. -/
theorem c8_retry_policy :
    (∀ (cfg : Config) (p : Payload) (st : SyncState)
      (responses : Nat → HttpResp) (now : String) (writeOk : Bool)
      (store : Option SyncState) (kvs0 : List (String × Json)),
      (∀ i, responses i = .http 200 (some (.obj kvs0))) →
      respSuccess (.obj kvs0) = false →
      0 < payloadTotal p →
      (send_to_external_db cfg (.payload p) st responses now writeOk
        store).success = false ∧
      (send_to_external_db cfg (.payload p) st responses now writeOk
        store).posts = List.replicate cfg.maxRetries p ∧
      (0 < cfg.maxRetries →
        (send_to_external_db cfg (.payload p) st responses now writeOk
          store).state.last_error =
          some ((Json.obj kvs0).getD "error" (.str "Unknown error")))) ∧
    (∀ (cfg : Config) (p : Payload) (st : SyncState)
      (responses : Nat → HttpResp) (now : String) (writeOk : Bool)
      (store : Option SyncState) (bodyf : Nat → Option Json),
      (∀ i, responses i = .http 429 (bodyf i)) →
      0 < payloadTotal p →
      (send_to_external_db cfg (.payload p) st responses now writeOk
        store).success = false ∧
      (send_to_external_db cfg (.payload p) st responses now writeOk
        store).posts = List.replicate cfg.maxRetries p ∧
      (send_to_external_db cfg (.payload p) st responses now writeOk
        store).sleeps = (List.range (cfg.maxRetries - 1)).map
          (fun j => cfg.retryDelay * (1 + j))) ∧
    (∀ (cfg : Config) (p : Payload) (st : SyncState)
      (responses : Nat → HttpResp) (now : String) (writeOk : Bool)
      (store : Option SyncState) (q : Payload),
      q ∈ (send_to_external_db cfg (.payload p) st responses now writeOk
        store).posts → q = p) := by
  refine ⟨?_, ?_, ?_⟩
  · intro cfg p st responses now writeOk store kvs0 hresp hfailb hp
    have h0 : ¬payloadTotal p = 0 := by omega
    simp only [send_to_external_db]
    rw [if_neg h0,
      sendLoop_app_failure cfg p responses now writeOk kvs0 hresp hfailb
        cfg.maxRetries 1 st store]
    refine ⟨rfl, rfl, ?_⟩
    intro hmax
    rw [if_neg (by omega)]
  · intro cfg p st responses now writeOk store bodyf hresp hp
    have h0 : ¬payloadTotal p = 0 := by omega
    simp only [send_to_external_db]
    rw [if_neg h0,
      sendLoop_all_429 cfg p responses now writeOk bodyf hresp
        cfg.maxRetries 1 st store (by omega)]
    exact ⟨rfl, rfl, rfl⟩
  · intro cfg p st responses now writeOk store q hq
    by_cases h0 : payloadTotal p = 0
    · simp only [send_to_external_db] at hq
      rw [if_pos h0] at hq
      simp at hq
    · simp only [send_to_external_db] at hq
      rw [if_neg h0] at hq
      exact sendLoop_posts_all_eq cfg p responses now writeOk
        cfg.maxRetries 1 st store q hq

/-- C8, witness: the policy applied to an all-application-failure run and
an all-429 run under the default configuration. -/
theorem c8_witness :
    ((send_to_external_db cfgDefault (.payload payloadSample)
        defaultSyncState (fun _ => .http 200 (some (.obj appFailBody)))
        "T" true none).posts = List.replicate cfgDefault.maxRetries
        payloadSample) ∧
    ((send_to_external_db cfgDefault (.payload payloadSample)
        defaultSyncState (fun _ => .http 429 none) "T" true none).sleeps =
      (List.range (cfgDefault.maxRetries - 1)).map
        (fun j => cfgDefault.retryDelay * (1 + j))) :=
  ⟨(c8_retry_policy.1 cfgDefault payloadSample defaultSyncState
      (fun _ => .http 200 (some (.obj appFailBody))) "T" true none
      appFailBody (fun _ => rfl) (by decide) (by decide)).2.1,
   (c8_retry_policy.2.1 cfgDefault payloadSample defaultSyncState
      (fun _ => .http 429 none) "T" true none (fun _ => none)
      (fun _ => rfl) (by decide)).2.2⟩

/-- C9.  A falsy data argument — None or an empty dict — makes
send_to_external_db return False with no post, no sleep and no state-file
write, while a truthy payload containing zero records returns True. -/
theorem c9_falsy_payload_failure :
    (∀ (cfg : Config) (st : SyncState) (responses : Nat → HttpResp)
      (now : String) (writeOk : Bool) (store : Option SyncState),
      send_to_external_db cfg .pynone st responses now writeOk store =
        { success := false, state := st, store := store, posts := [],
          sleeps := [] }) ∧
    (∀ (cfg : Config) (st : SyncState) (responses : Nat → HttpResp)
      (now : String) (writeOk : Bool) (store : Option SyncState),
      send_to_external_db cfg .emptyDict st responses now writeOk store =
        { success := false, state := st, store := store, posts := [],
          sleeps := [] }) ∧
    (∀ (cfg : Config) (sid : String) (st : SyncState)
      (responses : Nat → HttpResp) (now : String) (writeOk : Bool)
      (store : Option SyncState),
      send_to_external_db cfg
        (.payload
          { server_id := sid, maps := [], log_lines := [],
            player_sessions := [], player_stats := [] })
        st responses now writeOk store =
        { success := true, state := st, store := store, posts := [],
          sleeps := [] }) :=
  ⟨fun _ _ _ _ _ _ => rfl, fun _ _ _ _ _ _ => rfl,
   fun _ _ _ _ _ _ _ => rfl⟩

/-- C10.  save_sync_state swallows every persisting error (it returns
normally with the file untouched — writeOk=false models the caught
exception), and consequently an acknowledged delivery returns True even
when the state write failed, leaving the stored cursors unadvanced. -/
theorem c10_save_errors_swallowed :
    (∀ (st : SyncState) (now : String) (store : Option SyncState),
      save_sync_state st now false store = store) ∧
    (∀ (cfg : Config) (p : Payload) (st : SyncState)
      (responses : Nat → HttpResp) (now : String)
      (store : Option SyncState) (kvs0 : List (String × Json)),
      responses 1 = .http 200 (some (.obj kvs0)) →
      respSuccess (.obj kvs0) = true →
      0 < payloadTotal p → 0 < cfg.maxRetries →
      (send_to_external_db cfg (.payload p) st responses now false
        store).success = true ∧
      (send_to_external_db cfg (.payload p) st responses now false
        store).store = store) := by
  constructor
  · intro st now store
    rfl
  · intro cfg p st responses now store kvs0 hresp hsucc hp hmax
    obtain ⟨n, hn⟩ : ∃ n, cfg.maxRetries = n + 1 :=
      ⟨cfg.maxRetries - 1, by omega⟩
    simp only [send_to_external_db]
    rw [if_neg (by omega), hn]
    simp only [sendLoop, hresp]
    rw [if_pos trivial, if_pos hsucc]
    exact ⟨rfl, rfl⟩

/-- C10, witness: an acknowledged first attempt with a failing state
write still reports success and leaves the store empty. -/
theorem c10_witness :
    (send_to_external_db cfgDefault (.payload payloadSample)
      defaultSyncState (fun _ => .http 200 (some (.obj appSuccessBody)))
      "T" false none).success = true ∧
    (send_to_external_db cfgDefault (.payload payloadSample)
      defaultSyncState (fun _ => .http 200 (some (.obj appSuccessBody)))
      "T" false none).store = none :=
  c10_save_errors_swallowed.2 cfgDefault payloadSample defaultSyncState
    (fun _ => .http 200 (some (.obj appSuccessBody))) "T" none
    appSuccessBody rfl (by decide) (by decide) (by decide)

/-! ## Claim on save atomicity -/

/-- The atomicity property the claim asserts of save_sync_state: every
crash point observes either the old file content or the complete new
serialization (what write-to-temp-then-rename would guarantee). -/
def save_crash_atomic : Prop :=
  ∀ (old : List Char) (st : SyncState) (now : String) (k : Nat),
    save_crash_content old st now k = old ∨
    save_crash_content old st now k = saveContent st now

/-- The serialization of a state dict always opens with a brace — in
particular it is never empty. -/
theorem saveContent_ne_nil (st : SyncState) (now : String) :
    saveContent st now ≠ [] := by
  rw [saveContent, syncStateToJson, Json.dump, Json.dumpv]
  rw [String.data_append]
  simp

/-- The state file content a previous successful save left behind:
cursors log_lines 100, player_sessions 50, player_stats 0,
map_history 10. -/
def oldStateContent : List Char :=
  ("\x7b\n  \"last_exported_ids\": \x7b\n    \"log_lines\": 100,\n    \"player_sessions\": 50,\n    \"player_stats\": 0,\n    \"map_history\": 10\n  \x7d\n\x7d").data

/-- A state about to be saved over it. -/
def st100 : SyncState :=
  { last_exported_ids :=
      { log_lines := 105, player_sessions := 50, player_stats := 0,
        map_history := 10 },
    export_count := 4,
    last_export_time := some "2024-01-01T00:00:00",
    last_success := some "2024-01-01T00:05:00",
    last_error := none,
    total_exported :=
      { log_lines := 105, player_sessions := 50, player_stats := 0,
        map_history := 10 } }

set_option maxRecDepth 8192 in
/-- C4, counterexample.  save_sync_state opens the state file with mode
w — truncating it immediately — and writes the serialization directly;
there is no temporary file and no rename.  Crash point 1 (just after the
open) leaves an empty file, which is neither the old content nor the new
serialization; a later load of the empty file falls back to the default
state with cursor 0 where the old content carried cursor 100 — the
pre-save cursors are lost. -/
theorem c4_counterexample :
    ¬ save_crash_atomic ∧
    save_crash_content oldStateContent st100 "B" 1 = [] ∧
    (load_sync_state_content []).last_exported_ids.log_lines = 0 ∧
    (load_sync_state_content oldStateContent).last_exported_ids.log_lines
      = 100 := by
  refine ⟨?_, rfl, rfl, by decide⟩
  intro h
  rcases h oldStateContent st100 "B" 1 with h1 | h2
  · have he : save_crash_content oldStateContent st100 "B" 1 = [] := rfl
    rw [he] at h1
    exact absurd h1.symm (by decide)
  · have he : save_crash_content oldStateContent st100 "B" 1 = [] := rfl
    rw [he] at h2
    exact saveContent_ne_nil st100 "B" h2.symm

/-- C4, amended.  What the direct write actually guarantees: a crash
before the open leaves the old content; a crash right after the
truncating open leaves an empty file, which a later load reads as the
default zero-cursor state; only a crash after the last character leaves
the complete new serialization. -/
theorem c4_amended_direct_write :
    (∀ (old : List Char) (st : SyncState) (now : String),
      save_crash_content old st now 0 = old) ∧
    (∀ (old : List Char) (st : SyncState) (now : String),
      save_crash_content old st now 1 = [] ∧
      load_sync_state_content [] = defaultSyncState) ∧
    (∀ (old : List Char) (st : SyncState) (now : String),
      save_crash_content old st now ((saveContent st now).length + 1) =
        saveContent st now) := by
  refine ⟨fun _ _ _ => rfl, fun _ _ _ => ⟨rfl, rfl⟩, fun old st now => ?_⟩
  rw [save_crash_content, if_neg (Nat.succ_ne_zero _)]
  simp

/-! ## Properties of the external-id derivation

The derivation is a pure function, so determinism over identical inputs
is definitional.  The claim that moving end from null to any concrete
timestamp always changes the returned id is equivalent to the absence of
collisions of the 48-bit truncated MD5 digest between the two hash-input
families, which is neither provable nor refutable here; the lemmas below
record what does hold: a null end is hashed exactly like the literal
sentinel "ongoing", and on a concrete open map the id does change when
the map closes. -/

theorem create_map_external_id_null_end_sentinel (server_name : String)
    (map_id : Nat) (start : Option String) (map_name : String) :
    create_map_external_id server_name map_id start none map_name =
      create_map_external_id server_name map_id start (some "ongoing")
        map_name := rfl

set_option maxRecDepth 8192 in
theorem create_map_external_id_open_vs_closed_example :
    create_map_external_id "Server-DE-01" 7 (some "2024-01-01T00:00:00")
      none "carentan" ≠
    create_map_external_id "Server-DE-01" 7 (some "2024-01-01T00:00:00")
      (some "2024-01-01T01:30:00") "carentan" := by decide

end ExternalSync
